import Mathlib

/-!
Verification of the YardBoy zone store, quest checklist, zone query/filter and
zone mutation logic (`src/App.tsx`), shallowly embedded in Lean.

Persisted data crosses `JSON.parse`, so loaded records are duck-typed JavaScript
values; we model them with an explicit `JValue` type and model JavaScript
truthiness, array indexing and substring search explicitly.  Typed in-memory
zones (as produced by the creation modal) are modelled by the `Zone` type
mirroring the `Zone` TypeScript type.
-/

namespace YardBoy

/-- A JavaScript runtime value as relevant to this program: the JSON value
grammar plus `undefined` (which arises from out-of-range array reads and array
holes, never from `JSON.parse`).  Numbers are modelled as rationals. -/
inductive JValue where
  | null : JValue
  | undef : JValue
  | bool : Bool → JValue
  | num : ℚ → JValue
  | str : String → JValue
  | arr : List JValue → JValue
  | obj : List (String × JValue) → JValue

/-- JavaScript truthiness: `false`, `0`, `""`, `null`, `undefined` are falsy;
every other value (including any object or array) is truthy. -/
def truthy : JValue → Bool
  | .null => false
  | .undef => false
  | .bool b => b
  | .num n => !(n == 0)
  | .str s => !(s == "")
  | .arr _ => true
  | .obj _ => true

/-- Property lookup on a parsed JSON object.  Objects produced by `JSON.parse`
have unique keys, so first-match lookup is adequate. -/
def jLookup : List (String × JValue) → String → Option JValue
  | [], _ => none
  | (k, v) :: rest, key => if k == key then some v else jLookup rest key

/-- The state of one durable-storage slot as the program observes it:
the key is absent (or holds the falsy empty string), holds text that
`JSON.parse` rejects, or holds text parsing to a JSON value. -/
inductive Slot where
  | absent : Slot
  | junk : Slot
  | val : JValue → Slot

/-- Durable storage for the zone store: the `yardboy-schema` slot (the spec's
storage table records it as a stringified integer; `none` models an absent
marker, which `Number(getItem(SKEY) || 0)` turns into `0`), the
`yardboy-zones` slot, and a flag modelling a storage read throwing an
exception (caught by the `try`/`catch` in `safeLoadZones`). -/
structure Store where
  schema : Option ℕ
  zones : Slot
  readFails : Bool

/-- Substring test over character lists, via repeated `isPrefixOf`. -/
def hasSubstr (hay needle : List Char) : Bool :=
  needle.isPrefixOf hay ||
    match hay with
    | [] => false
    | _ :: t => hasSubstr t needle

/-- JavaScript `haystack.includes(needle)` for strings. -/
def jsIncludes (hay needle : String) : Bool :=
  hasSubstr hay.toList needle.toList

/-- JavaScript `s.toLowerCase()`, character by character (the search strings here are
effectively ASCII). -/
def toLowerStr (s : String) : String :=
  String.mk (s.toList.map Char.toLower)

/-- JavaScript `s.trim()`: surrounding whitespace removed. -/
def trimStr (s : String) : String :=
  String.mk (((s.toList.dropWhile Char.isWhitespace).reverse.dropWhile
    Char.isWhitespace).reverse)

/-- JavaScript `a || b` on strings: the empty string is falsy. -/
def jsOr (a b : String) : String :=
  if a == "" then b else a

/-- JavaScript array read `a[i]`: `undefined` beyond the end (or at a hole). -/
def jsArrayGet (a : List JValue) (i : ℕ) : JValue :=
  a.getD i JValue.undef

/-- JavaScript array write `a[i] = v`: in range it replaces the element; past
the end it extends the array, the skipped positions becoming holes that read
back as `undefined`. -/
def jsArraySet (a : List JValue) (i : ℕ) (v : JValue) : List JValue :=
  if i < a.length then a.set i v
  else a ++ List.replicate (i - a.length) JValue.undef ++ [v]

/-- The `Zone` TypeScript type.  `area` and `orientation` are string-literal
unions in TypeScript, hence plain strings at runtime; optional fields
(`tags?`, `emoji?`, `subzones?`) are `Option`s that JSON serialization omits
when absent, while `health : number | null` is always serialized (as `null`
when absent).  `subzones` makes the type recursive. -/
inductive Zone where
  | mk (id name area type orientation sun : String) (health : Option ℚ)
      (notes : List String) (tags : Option (List String)) (emoji : Option String)
      (subzones : Option (List Zone)) : Zone

def Zone.id : Zone → String
  | .mk i _ _ _ _ _ _ _ _ _ _ => i

def Zone.name : Zone → String
  | .mk _ n _ _ _ _ _ _ _ _ _ => n

def Zone.area : Zone → String
  | .mk _ _ a _ _ _ _ _ _ _ _ => a

def Zone.type : Zone → String
  | .mk _ _ _ t _ _ _ _ _ _ _ => t

def Zone.orientation : Zone → String
  | .mk _ _ _ _ o _ _ _ _ _ _ => o

def Zone.sun : Zone → String
  | .mk _ _ _ _ _ s _ _ _ _ _ => s

def Zone.health : Zone → Option ℚ
  | .mk _ _ _ _ _ _ h _ _ _ _ => h

def Zone.notes : Zone → List String
  | .mk _ _ _ _ _ _ _ ns _ _ _ => ns

def Zone.tags : Zone → Option (List String)
  | .mk _ _ _ _ _ _ _ _ ts _ _ => ts

def Zone.emoji : Zone → Option String
  | .mk _ _ _ _ _ _ _ _ _ e _ => e

def Zone.subzones : Zone → Option (List Zone)
  | .mk _ _ _ _ _ _ _ _ _ _ sz => sz

mutual

/-- The `JSON.stringify`/`JSON.parse` round trip of a typed zone: properties in the
order the zone literals assign them, optional (`undefined`) properties omitted,
`health : number | null` always present. -/
def zoneToJ : Zone → JValue
  | .mk id name area type orientation sun health notes tags emoji subzones =>
    JValue.obj
      ([("id", JValue.str id), ("name", JValue.str name), ("area", JValue.str area),
        ("type", JValue.str type), ("orientation", JValue.str orientation),
        ("sun", JValue.str sun)]
        ++ (match emoji with
            | some e => [("emoji", JValue.str e)]
            | none => [])
        ++ [("health", match health with
                       | some h => JValue.num h
                       | none => JValue.null),
            ("notes", JValue.arr (notes.map JValue.str))]
        ++ (match tags with
            | some ts => [("tags", JValue.arr (ts.map JValue.str))]
            | none => [])
        ++ (match subzones with
            | some szs => [("subzones", JValue.arr (zonesToJ szs))]
            | none => []))

def zonesToJ : List Zone → List JValue
  | [] => []
  | z :: zs => zoneToJ z :: zonesToJ zs

end

/-- The built-in seed collection (`BASE_ZONES`).  In the source every `id` is
produced by `uid()` (a random 8-character string); the ids are opaque, so they
are modelled as fixed distinct strings. -/
def BASE_ZONES : List Zone :=
  [Zone.mk "b1" "Pond" "Front Yard" "Pond + ornamentals" "West"
      "Afternoon sun (algae‑prone)" none
      ["Skim debris; clean filter mid‑late summer",
       "Monitor algae; shade or barley straw if bloom"]
      none (some "🐸") none,
   Zone.mk "b2" "Mulch Bed" "Front Yard" "Maple + perennials (mulched)" "West"
      "Partial shade" none
      ["Keep mulch off trunk flare (3–4\" ring)",
       "Light summer water if 7+ dry days"]
      none (some "🍁")
      (some [Zone.mk "b3" "Japanese Maple (front)" "Front Yard" "Acer palmatum"
              "West" "PM sun, AM shade" none
              ["Avoid heavy pruning in summer heat",
               "Slow‑release feed in spring only"]
              none (some "🌳") none]),
   Zone.mk "b4" "Grass Lawn (Back)" "Back Yard" "Turfgrass (cool‑season fescue mix)"
      "East" "Morning sun, afternoon shade" none
      ["Mow ~3.5–4\"",
       "Overseed thin areas mid–late Sept",
       "Slow‑release N late Sept"]
      none (some "🌿") none,
   Zone.mk "b5" "Azaleas (left of Garden Bed)" "Back Yard" "Shrubs (Azaleas)"
      "East" "Partial shade" none
      ["Keep evenly moist until fall rains",
       "Mulch 2–3\"; avoid crown",
       "Acidic feed after bloom only (spring)"]
      none (some "🌸") none,
   Zone.mk "b6" "Shrubs (sparse plantings)" "Back Yard" "Shrubs" "East" "Variable"
      none ["Audit in fall; plan fills for spring"] none (some "🪴") none,
   Zone.mk "b7" "Garden Bed" "Back Yard" "Soil prep area" "East"
      "Full morning sun, afternoon shade" none
      ["Top up compost; broadfork if compacted",
       "Plan fall cover crop (crimson clover/rye)"]
      none (some "🥕") none,
   Zone.mk "b8" "Deck Perimeter (future)" "South Side" "Deck plantings" "South"
      "Full sun, hottest zone" none
      ["Trial drought‑tolerant perennials next year"] none (some "🌞") none]

/-- The seed collection as the duck-typed values `safeLoadZones` traffics in. -/
def baseZonesJ : List JValue := zonesToJ BASE_ZONES

def SCHEMA_VERSION : ℕ := 4

/-- The shape check `isZone(obj)`: `obj && typeof obj === "object" && typeof obj.name ===
"string" && typeof obj.area === "string"`.  An array is a JavaScript object
but lacks a `name` property, so it fails the check; any non-object fails the
`typeof` test (or, for `null`, is falsy). -/
def isZone (j : JValue) : Bool :=
  match j with
  | .obj fs =>
      (match jLookup fs "name" with
       | some (.str _) => true
       | _ => false) &&
      (match jLookup fs "area" with
       | some (.str _) => true
       | _ => false)
  | _ => false

/-- The load procedure `safeLoadZones()`: returns the loaded collection together with the updated
durable storage.  The `readFails` branch models the surrounding `try`/`catch`
catching a storage exception; `Slot.junk` models `JSON.parse` throwing (also
caught); `storedSchema` is `Number(localStorage.getItem(SKEY) || 0)`. -/
def safeLoadZones (st : Store) : List JValue × Store :=
  if st.readFails then (baseZonesJ, st)
  else
    let storedSchema := st.schema.getD 0
    if storedSchema ≠ SCHEMA_VERSION then
      (baseZonesJ,
       { st with zones := Slot.val (JValue.arr baseZonesJ),
                 schema := some SCHEMA_VERSION })
    else
      match st.zones with
      | .absent => (baseZonesJ, st)
      | .junk => (baseZonesJ, st)
      | .val j =>
        match j with
        | .arr parsed =>
          let clean := parsed.filter isZone
          if clean.isEmpty then (baseZonesJ, st) else (clean, st)
        | _ => (baseZonesJ, st)

/-- One entry of the static `QUESTS` list. -/
structure Quest where
  text : String
  freq : String
deriving DecidableEq

def QUESTS : List Quest :=
  [⟨"Keep azaleas watered weekly until rains", "weekly"⟩,
   ⟨"Decide watering vs dormancy for front (west) lawn", "biweekly"⟩,
   ⟨"Overseed patchy spots mid–late Sept (fescue)", "once"⟩,
   ⟨"First fall fertilizer late Sept (slow‑release N)", "once"⟩,
   ⟨"Prep/compost garden bed; consider cover crop", "once"⟩]

/-- The `useState` initializer for `checks`: absent raw value, a parse failure
(caught) or a non-array parse give `Array(QUESTS.length).fill(false)`; a parsed
array is returned as `arr.slice(0, QUESTS.length)` with no element-level
validation. -/
def loadChecks (slot : Slot) : List JValue :=
  match slot with
  | .absent => List.replicate QUESTS.length (JValue.bool false)
  | .junk => List.replicate QUESTS.length (JValue.bool false)
  | .val j =>
    match j with
    | .arr arr => arr.take QUESTS.length
    | _ => List.replicate QUESTS.length (JValue.bool false)

/-- The toggle `toggleQuest(i)`: `next = [...prev]; next[i] = !next[i]`, with JavaScript
array-read and array-write semantics. -/
def toggleQuest (checks : List JValue) (i : ℕ) : List JValue :=
  jsArraySet checks i (JValue.bool (!truthy (jsArrayGet checks i)))

/-- Insertion placing `x` before the first element `y` with `le x y`, so that
elements comparing equal keep their original relative order. -/
def insertSorted {α : Type} (le : α → α → Bool) (x : α) : List α → List α
  | [] => [x]
  | y :: ys => if le x y then x :: y :: ys else y :: insertSorted le x ys

/-- A stable sort, modelling `Array.prototype.sort` (stable per the ECMAScript
specification) with comparator `(a, b) => le-rank difference`. -/
def stableSort {α : Type} (le : α → α → Bool) : List α → List α
  | [] => []
  | x :: xs => insertSorted le x (stableSort le xs)

/-- The comparator table `{ weekly: 0, biweekly: 1, once: 2 }`; every `freq`
in `QUESTS` is a key of the table. -/
def freqOrder (f : String) : ℕ :=
  if f == "weekly" then 0 else if f == "biweekly" then 1 else 2

/-- The display list `visibleTasks`: `[...QUESTS].sort((a, b) => order[a.freq] - order[b.freq])`. -/
def visibleTasks : List Quest :=
  stableSort (fun a b => freqOrder a.freq ≤ freqOrder b.freq) QUESTS

/-- Whether the checkbox rendered at display position `i` is checked:
`checks[i] || false` used as the `checked` attribute. -/
def displayedChecked (checks : List JValue) (i : ℕ) : Bool :=
  truthy (jsArrayGet checks i)

/-- The all-false initial checklist, `Array(QUESTS.length).fill(false)`. -/
def initialChecks : List JValue :=
  List.replicate QUESTS.length (JValue.bool false)

/-- The count `done = checks.filter(Boolean).length`: the number of truthy flags. -/
def doneCount (checks : List JValue) : ℕ :=
  (checks.filter truthy).length

/-- The percentage `pct = Math.round((done / Math.max(1, total)) * 100)`.  `Math.round` on a
non-negative argument is `⌊x + 1/2⌋`, which is Mathlib's `round`. -/
def pct (done total : ℕ) : ℤ :=
  round ((done : ℚ) / ((max 1 total : ℕ) : ℚ) * 100)

/-- The `details` payload of a plant-identification suggestion. -/
structure PlantDetails where
  common_names : Option (List String)
  watering : Option (List String)
  sunlight : Option (List String)
  url : Option String

/-- One entry of the proxy's `suggestions` list. -/
structure PlantSuggestion where
  name : String
  probability : ℚ
  details : Option PlantDetails

/-- The selection `suggestions?.[aiChosen]?.name` with `undefined` collapsed to the equally
falsy `""` (both fall through `||` identically). -/
def suggestionName (suggestions : Option (List PlantSuggestion)) (aiChosen : ℕ) : String :=
  (((suggestions.getD []).get? aiChosen).map PlantSuggestion.name).getD ""

/-- The `accept` callback of the Add Plant modal: builds the new zone from the
modal state (`name`, `suggestions`, `aiChosen`, `area`, `type`, `sun`,
`emoji`) and the fresh `uid()` value `id`. -/
def accept (id name : String) (suggestions : Option (List PlantSuggestion))
    (aiChosen : ℕ) (area type sun emoji : String) : Zone :=
  Zone.mk id
    (jsOr name (jsOr (suggestionName suggestions aiChosen) "New Plant"))
    area type
    (if area == "Front Yard" then "West"
     else if area == "Back Yard" then "East"
     else if area == "South Side" then "South"
     else "N/A")
    sun none
    ["Newly added plant — monitor water the first 2 weeks."]
    none (some emoji) none

/-- The insertion callback `onCreate`: `setZones(prev => [z, ...prev])`. -/
def addZone (z : Zone) (prev : List Zone) : List Zone :=
  z :: prev

/-- The `filtered` memo: `q = query.trim().toLowerCase()`; a zone is kept when
the area matches (or the filter is `"All"`) and, if `q` is non-empty, the
lowercased concatenation of name, type, space-joined tags and sun contains
`q`. -/
def filtered (zones : List Zone) (areaFilter query : String) : List Zone :=
  let q := toLowerStr (trimStr query)
  zones.filter fun z =>
    let areaOk := if areaFilter == "All" then true else z.area == areaFilter
    let text := toLowerStr (z.name ++ " " ++ z.type ++ " "
        ++ String.intercalate " " (z.tags.getD []) ++ " " ++ z.sun)
    areaOk && (if q == "" then true else jsIncludes text q)

/-- The `Area` enumeration of the `Zone` type. -/
def AREA_VALUES : List String :=
  ["Front Yard", "Back Yard", "Side Yard", "South Side", "Yard (Total)"]

/-- The `Orientation` enumeration of the `Zone` type. -/
def ORIENTATION_VALUES : List String :=
  ["West", "East", "South", "N/A"]

/-- The per-record validation rule exactly as claim C2 states it: the record
must have `name` and `area` as text, and its `area` and `orientation` must be
members of their fixed enumerations. -/
def claimValidZone : JValue → Bool
  | .obj fs =>
      (match jLookup fs "name" with
       | some (.str _) => true
       | _ => false) &&
      (match jLookup fs "area" with
       | some (.str a) => AREA_VALUES.contains a
       | _ => false) &&
      (match jLookup fs "orientation" with
       | some (.str o) => ORIENTATION_VALUES.contains o
       | _ => false)
  | _ => false

/-- The failing durable-storage states enumerated by claim C3: zone value
absent, unparsable, parsed but not an array, or an array every record of
which fails `isZone`. -/
def badZonesSlot : Slot → Bool
  | .absent => true
  | .junk => true
  | .val j =>
    match j with
    | .arr xs => xs.all fun r => !isZone r
    | _ => true

/-- C1: whenever the stored schema-version marker (absent read as 0) differs
from `SCHEMA_VERSION`, `safeLoadZones` returns exactly the seed collection,
overwrites the durable zone collection with the seed collection, and writes
the current schema-version marker. -/
theorem schema_mismatch_reseeds (st : Store)
    (hr : st.readFails = false) (hs : st.schema.getD 0 ≠ SCHEMA_VERSION) :
    safeLoadZones st =
      (baseZonesJ,
       { st with zones := Slot.val (JValue.arr baseZonesJ),
                 schema := some SCHEMA_VERSION }) := by
  simp [safeLoadZones, hr, hs]

/-- Witness for C1: loading from an empty store (marker absent, version 0 ≠ 4)
returns the seed collection and persists it with the current marker. -/
theorem schema_mismatch_reseeds_witness :
    safeLoadZones ⟨none, Slot.absent, false⟩ =
      (baseZonesJ, ⟨some SCHEMA_VERSION, Slot.val (JValue.arr baseZonesJ), false⟩) :=
  schema_mismatch_reseeds ⟨none, Slot.absent, false⟩ rfl (by decide)

/-- C3: for every durable-storage state in which the zone value is absent,
unparsable, not an array, or an array of only invalid records, or in which
the read throws, `safeLoadZones` returns the seed collection (it is a total
function, so it never raises to its caller). -/
theorem load_falls_back_to_seed (st : Store)
    (h : st.readFails = true ∨ badZonesSlot st.zones = true) :
    (safeLoadZones st).1 = baseZonesJ := by
  unfold safeLoadZones
  by_cases hr : st.readFails = true
  · simp [hr]
  · replace hr : st.readFails = false := by simpa using hr
    rcases h with h | h
    · exact absurd h (by simp [hr])
    · simp only [hr, Bool.false_eq_true, if_false]
      by_cases hs : st.schema.getD 0 ≠ SCHEMA_VERSION
      · simp [hs]
      · rw [if_neg hs]
        cases hz : st.zones with
        | absent => rfl
        | junk => rfl
        | val j =>
          rw [hz] at h
          cases j with
          | arr xs =>
            have hall : ∀ x ∈ xs, isZone x = false := by
              simpa [badZonesSlot] using h
            have hnil : xs.filter isZone = [] := by
              rw [List.filter_eq_nil_iff]
              intro a ha
              simp [hall a ha]
            simp [hnil]
          | null => rfl
          | undef => rfl
          | bool b => rfl
          | num n => rfl
          | str s => rfl
          | obj fs => rfl

/-- Witness for C3: unparsable stored zones under a matching schema version
load as the seed collection. -/
theorem load_falls_back_to_seed_witness :
    (safeLoadZones ⟨some SCHEMA_VERSION, Slot.junk, false⟩).1 = baseZonesJ :=
  load_falls_back_to_seed ⟨some SCHEMA_VERSION, Slot.junk, false⟩ (Or.inr rfl)

/-- A record whose `area` ("Mars") and `orientation` ("North") lie outside
their enumerations but which passes the code's shape check. -/
def enumViolatingRec : JValue :=
  JValue.obj [("name", JValue.str "X"), ("area", JValue.str "Mars"),
              ("orientation", JValue.str "North")]

/-- Counterexample to C2 as stated: under a matching schema version the load
keeps a record whose `area` and `orientation` are not members of their fixed
enumerations, which the claim says is discarded. -/
theorem load_keeps_enum_violating_record :
    (safeLoadZones
        ⟨some SCHEMA_VERSION, Slot.val (JValue.arr [enumViolatingRec]), false⟩).1 =
      [enumViolatingRec] ∧
    claimValidZone enumViolatingRec = false :=
  ⟨rfl, rfl⟩

/-- C2 amended: under a matching schema version, load discards exactly the
records failing the shape check `isZone` (an object with `name` and `area` as
text); membership of `area`/`orientation` in their enumerations is not
checked.  If nothing survives the filter the seed collection is returned. -/
theorem load_keeps_exactly_shape_valid_records (st : Store) (xs : List JValue)
    (hr : st.readFails = false) (hs : st.schema.getD 0 = SCHEMA_VERSION)
    (hz : st.zones = Slot.val (JValue.arr xs)) :
    (safeLoadZones st).1 =
      (if (xs.filter isZone).isEmpty then baseZonesJ else xs.filter isZone) := by
  simp only [safeLoadZones, hr, hs, hz]
  simp
  split <;> rfl

/-- A record passing shape validation. -/
def validRec : JValue :=
  JValue.obj [("name", JValue.str "X"), ("area", JValue.str "Front Yard")]

/-- A record missing `name`, hence failing shape validation. -/
def missingNameRec : JValue :=
  JValue.obj [("area", JValue.str "Front Yard")]

/-- Witness for C2 amended: one valid and one invalid record load as just the
valid record. -/
theorem load_keeps_exactly_shape_valid_records_witness :
    (safeLoadZones
        ⟨some SCHEMA_VERSION, Slot.val (JValue.arr [validRec, missingNameRec]),
         false⟩).1 = [validRec] := by
  have h := load_keeps_exactly_shape_valid_records
      ⟨some SCHEMA_VERSION, Slot.val (JValue.arr [validRec, missingNameRec]), false⟩
      [validRec, missingNameRec] rfl rfl rfl
  rw [h]
  rfl

/-- The text test exactly as claim C4 states it: the query is empty, or the
lowercased search text contains the lowercased query verbatim (no trimming of
the query). -/
def claimTextTest (z : Zone) (query : String) : Bool :=
  (query == "") ||
    jsIncludes (toLowerStr (z.name ++ " " ++ z.type ++ " "
        ++ String.intercalate " " (z.tags.getD []) ++ " " ++ z.sun))
      (toLowerStr query)

/-- Modelled from the spec, amended for C4: the area test passes when the
filter is the sentinel `"All"` or equals the zone's area; the text test first
trims and lowercases the query, and passes when the trimmed query is empty or
the lowercased concatenation of name, type, space-joined tags and sun
contains it. -/
def specPasses (areaFilter query : String) (z : Zone) : Bool :=
  ((areaFilter == "All") || (z.area == areaFilter)) &&
    (let q := toLowerStr (trimStr query)
     (q == "") ||
       jsIncludes (toLowerStr (z.name ++ " " ++ z.type ++ " "
           ++ String.intercalate " " (z.tags.getD []) ++ " " ++ z.sun)) q)

/-- A zone named "Pond" with no tags; its search text is "pond t  s". -/
def pondZone : Zone :=
  Zone.mk "p1" "Pond" "Front Yard" "T" "West" "S" none [] none none none

/-- Counterexample to C4 as stated: with the query `" pond"` the code trims
before matching and keeps the Pond zone, while the claim's untrimmed text test
rejects it, so the computation does not return exactly the zones passing the
claim's tests. -/
theorem filtered_trims_query_counterexample :
    filtered [pondZone] "All" " pond" = [pondZone] ∧
    claimTextTest pondZone " pond" = false :=
  ⟨rfl, rfl⟩

/-- C4 amended: the query/filter computation returns exactly the zones passing
the area test and the trimmed-query text test, preserving the original order
(it is the stable `List.filter` of that predicate). -/
theorem filtered_eq_spec_filter (zones : List Zone) (areaFilter query : String) :
    filtered zones areaFilter query = zones.filter (specPasses areaFilter query) := by
  unfold filtered specPasses
  refine List.filter_congr ?_
  intro z _
  cases hA : (areaFilter == "All") <;>
    cases hq : (toLowerStr (trimStr query) == "") <;>
      simp [hA, hq]

/-- C6: display order sorts quests by frequency rank, which for the fixed
`QUESTS` list coincides with the original order (the list is already rank
sorted and the sort is stable); toggling flag index 2 marks the original
index-2 quest — the "Overseed patchy spots…" item, which is also the quest at
display position 2 — as the only completed one. -/
theorem quest_toggle_addresses_original_indices :
    visibleTasks = QUESTS ∧
    (QUESTS.get? 2).map Quest.text =
      some "Overseed patchy spots mid–late Sept (fescue)" ∧
    (visibleTasks.get? 2).map Quest.text =
      some "Overseed patchy spots mid–late Sept (fescue)" ∧
    (List.range QUESTS.length).map (displayedChecked (toggleQuest initialChecks 2)) =
      [false, false, true, false, false] :=
  ⟨by decide, rfl, by decide, rfl⟩

/-- Counterexample to C5 as stated: with all `QUESTS.length` flags false,
toggling the out-of-range index `QUESTS.length` changes the flag sequence
(it grows by one entry), so the toggle is not a silent no-op. -/
theorem toggle_out_of_range_not_noop :
    toggleQuest (List.replicate QUESTS.length (JValue.bool false)) QUESTS.length ≠
      List.replicate QUESTS.length (JValue.bool false) := by
  intro h
  have hlen := congrArg List.length h
  simp [toggleQuest, jsArraySet, jsArrayGet] at hlen

/-- C5 amended: toggling an index at or beyond the flag sequence's length (in
particular any index ≥ questCount, the sequence being at most questCount long)
is not a no-op: it extends the sequence, the skipped positions becoming
`undefined` holes and position `index` becoming `true`. -/
theorem toggle_out_of_range_extends (checks : List JValue) (i : ℕ)
    (h : checks.length ≤ i) :
    toggleQuest checks i =
      checks ++ List.replicate (i - checks.length) JValue.undef
        ++ [JValue.bool true] := by
  have hget : jsArrayGet checks i = JValue.undef := by
    simp [jsArrayGet, List.getD, List.getElem?_eq_none h]
  simp [toggleQuest, jsArraySet, hget, truthy, Nat.not_lt.mpr h]

/-- Witness for C5 amended: toggling index 5 of the five all-false flags
yields six entries, the last one true. -/
theorem toggle_out_of_range_extends_witness :
    toggleQuest initialChecks QUESTS.length =
      initialChecks
        ++ List.replicate (QUESTS.length - initialChecks.length) JValue.undef
        ++ [JValue.bool true] :=
  toggle_out_of_range_extends initialChecks QUESTS.length (by decide)

/-- C7: for every flag combination of at most `questCount` entries,
`pct (doneCount checks) questCount` — `Math.round(done / max(1, total) * 100)`
— is an integer in [0, 100], including for `questCount = 0`. -/
theorem completion_percent_in_bounds (checks : List JValue) (questCount : ℕ)
    (h : checks.length ≤ questCount) :
    0 ≤ pct (doneCount checks) questCount ∧
      pct (doneCount checks) questCount ≤ 100 := by
  have hd : doneCount checks ≤ questCount :=
    le_trans (List.length_filter_le _ _) h
  have ht0 : (0 : ℚ) < ((max 1 questCount : ℕ) : ℚ) := by
    have h1 : (1 : ℕ) ≤ max 1 questCount := le_max_left _ _
    exact_mod_cast Nat.lt_of_lt_of_le Nat.zero_lt_one h1
  have hx0 : (0 : ℚ) ≤ (doneCount checks : ℚ) / ((max 1 questCount : ℕ) : ℚ) * 100 := by
    positivity
  have hx100 : (doneCount checks : ℚ) / ((max 1 questCount : ℕ) : ℚ) * 100 ≤ 100 := by
    have hdt : (doneCount checks : ℚ) ≤ ((max 1 questCount : ℕ) : ℚ) := by
      exact_mod_cast le_trans hd (le_max_right 1 questCount)
    have h1 : (doneCount checks : ℚ) / ((max 1 questCount : ℕ) : ℚ) ≤ 1 :=
      (div_le_one ht0).mpr hdt
    nlinarith
  constructor
  · rw [pct, round_eq]
    exact Int.floor_nonneg.mpr (by linarith)
  · rw [pct, round_eq]
    have hlt : (doneCount checks : ℚ) / ((max 1 questCount : ℕ) : ℚ) * 100 + 1 / 2
        < ((101 : ℤ) : ℚ) := by
      have h101 : ((101 : ℤ) : ℚ) = (101 : ℚ) := by norm_num
      rw [h101]
      linarith
    have hf := Int.floor_lt.mpr hlt
    omega

/-- Witness for C7: three flags, two of them truthy, against the five-quest
list give a percentage within bounds. -/
theorem completion_percent_in_bounds_witness :
    0 ≤ pct (doneCount [JValue.bool true, JValue.bool false, JValue.bool true])
          QUESTS.length ∧
      pct (doneCount [JValue.bool true, JValue.bool false, JValue.bool true])
          QUESTS.length ≤ 100 :=
  completion_percent_in_bounds
    [JValue.bool true, JValue.bool false, JValue.bool true] QUESTS.length (by decide)

/-- Modelled from the spec: orientation derived from area — Front Yard→West,
Back Yard→East, South Side→South, anything else→N/A. -/
def specOrientationOf (area : String) : String :=
  if area == "Front Yard" then "West"
  else if area == "Back Yard" then "East"
  else if area == "South Side" then "South"
  else "N/A"

/-- C8: for every `accept` invocation — whatever the name, suggestion list,
chosen suggestion, type, sun or emoji — the created zone's orientation is the
spec's function of the area alone. -/
theorem accept_orientation_determined_by_area (id name : String)
    (suggestions : Option (List PlantSuggestion)) (aiChosen : ℕ)
    (area type sun emoji : String) :
    (accept id name suggestions aiChosen area type sun emoji).orientation =
      specOrientationOf area :=
  rfl

/-- C9: creating a zone named "New1" and then one named "New2" prepends each
in turn, yielding `[New2, New1, ...original...]` with the original collection
unchanged at the tail. -/
theorem create_prepends (C : List Zone) (id1 id2 : String)
    (s1 s2 : Option (List PlantSuggestion)) (a1 a2 : ℕ)
    (area1 area2 type1 type2 sun1 sun2 em1 em2 : String) :
    addZone (accept id2 "New2" s2 a2 area2 type2 sun2 em2)
        (addZone (accept id1 "New1" s1 a1 area1 type1 sun1 em1) C) =
      accept id2 "New2" s2 a2 area2 type2 sun2 em2 ::
        accept id1 "New1" s1 a1 area1 type1 sun1 em1 :: C ∧
    (accept id1 "New1" s1 a1 area1 type1 sun1 em1).name = "New1" ∧
    (accept id2 "New2" s2 a2 area2 type2 sun2 em2).name = "New2" :=
  ⟨rfl, rfl, rfl⟩

/-- C10: checklist load performs no element-level validation — a stored value
parsing to an array loads as its first `QUESTS.length` elements unchanged —
and a truthy non-boolean flag counts toward `doneCount` exactly as `true`
would. -/
theorem checks_load_unvalidated (xs l1 l2 : List JValue) (v : JValue)
    (h : truthy v = true) :
    loadChecks (Slot.val (JValue.arr xs)) = xs.take QUESTS.length ∧
    doneCount (l1 ++ v :: l2) = doneCount (l1 ++ JValue.bool true :: l2) := by
  refine ⟨rfl, ?_⟩
  have htrue : truthy (JValue.bool true) = true := rfl
  simp [doneCount, List.filter_append, List.filter_cons, h, htrue]

/-- Witness for C10: a six-element stored array of mixed values loads as its
first five elements, and a truthy string counts like a true flag. -/
theorem checks_load_unvalidated_witness :
    loadChecks (Slot.val (JValue.arr
        [JValue.num 1, JValue.str "", JValue.bool true, JValue.null,
         JValue.num 2, JValue.bool false])) =
      [JValue.num 1, JValue.str "", JValue.bool true, JValue.null,
       JValue.num 2] ∧
    doneCount ([JValue.bool false] ++ JValue.str "yes" :: [JValue.null]) =
      doneCount ([JValue.bool false] ++ JValue.bool true :: [JValue.null]) :=
  checks_load_unvalidated
    [JValue.num 1, JValue.str "", JValue.bool true, JValue.null,
     JValue.num 2, JValue.bool false]
    [JValue.bool false] [JValue.null] (JValue.str "yes") rfl

end YardBoy
